import Mathlib

/-
Verification development for the GP1_RayTracer repository.

The C++ sources under verification are:
  source/Utils.h      (GeometryUtils hit tests, LightUtils)
  source/Renderer.cpp (per-pixel integrator RenderPixel, lighting-mode switch)
  source/Material.h   (material Shade strategies)
  source/Matrix.cpp   (4x4 matrix construction and transform helpers)

Float scalars are modelled as real numbers.  Two IEEE-754 behaviours that the
source relies on are made explicit as branches, each marked by a comment at
the definition: sqrtf of a negative radicand is NaN (all ordered comparisons
against it are false), and division by a zero denominator yields +-Inf or NaN
(which fails a finite interval test; the repository's Ray bounds are finite
floats, at most FLT_MAX).

Types and helpers that live in headers not contained in the repository
snapshot (Vector3.h, ColorRGB.h, DataTypes.h, BRDFs.h, Scene.cpp) are
modelled from the specification; each such definition carries a doc comment
beginning with "Modelled from the spec:".
-/

open scoped Classical

noncomputable section

namespace RayTracer

/-- Modelled from the spec: Vector3 (Vector3.h is not in the snapshot) -
an immutable triple of floating-point scalars. -/
@[ext]
structure Vec3 where
  x : ℝ
  y : ℝ
  z : ℝ

instance : Add Vec3 := ⟨fun a b => ⟨a.x + b.x, a.y + b.y, a.z + b.z⟩⟩

instance : Sub Vec3 := ⟨fun a b => ⟨a.x - b.x, a.y - b.y, a.z - b.z⟩⟩

instance : Neg Vec3 := ⟨fun a => ⟨-a.x, -a.y, -a.z⟩⟩

instance : SMul ℝ Vec3 := ⟨fun s a => ⟨s * a.x, s * a.y, s * a.z⟩⟩

/-- Modelled from the spec: Vector3::Dot. -/
def dot3 (a b : Vec3) : ℝ := a.x * b.x + a.y * b.y + a.z * b.z

/-- Modelled from the spec: Vector3::Magnitude. -/
def Vec3.magnitude (v : Vec3) : ℝ := Real.sqrt (dot3 v v)

/-- Modelled from the spec: Vector3::Normalized - returns the vector divided
by its magnitude. -/
def Vec3.normalized (v : Vec3) : Vec3 := (1 / v.magnitude) • v

/-- Modelled from the spec: Vector3::Reflect - mirror direction `d` about the
normal `n`. -/
def reflect (d n : Vec3) : Vec3 := d - (2 * dot3 d n) • n

/-- Modelled from the spec: ColorRGB (ColorRGB.h is not in the snapshot). -/
@[ext]
structure ColorRGB where
  r : ℝ
  g : ℝ
  b : ℝ

instance : Add ColorRGB := ⟨fun a b => ⟨a.r + b.r, a.g + b.g, a.b + b.b⟩⟩

instance : Sub ColorRGB := ⟨fun a b => ⟨a.r - b.r, a.g - b.g, a.b - b.b⟩⟩

instance : Mul ColorRGB := ⟨fun a b => ⟨a.r * b.r, a.g * b.g, a.b * b.b⟩⟩

instance : SMul ℝ ColorRGB := ⟨fun s a => ⟨s * a.r, s * a.g, s * a.b⟩⟩

/-- Modelled from the spec: Vector4 - quadruple of scalars, a column of the
4x4 matrix. -/
structure Vec4 where
  x : ℝ
  y : ℝ
  z : ℝ
  w : ℝ

instance : SMul ℝ Vec4 := ⟨fun s a => ⟨s * a.x, s * a.y, s * a.z, s * a.w⟩⟩

/-- Matrix (Matrix.cpp): four Vector4 entries `data[0..3]`. -/
structure Matrix where
  data0 : Vec4
  data1 : Vec4
  data2 : Vec4
  data3 : Vec4

/-- Matrix::TransformVector (Matrix.cpp lines 36-53): scale each stored
column by the corresponding component and sum the xyz parts. -/
def Matrix.TransformVector (m : Matrix) (v : Vec3) : Vec3 :=
  let d0 := v.x • m.data0
  let d1 := v.y • m.data1
  let d2 := v.z • m.data2
  ⟨d0.x + d1.x + d2.x, d0.y + d1.y + d2.y, d0.z + d1.z + d2.z⟩

/-- Matrix::TransformPoint (Matrix.cpp lines 60-77): as TransformVector but
adding the xyz part of `data[3]`. -/
def Matrix.TransformPoint (m : Matrix) (p : Vec3) : Vec3 :=
  let d0 := p.x • m.data0
  let d1 := p.y • m.data1
  let d2 := p.z • m.data2
  ⟨d0.x + d1.x + d2.x + m.data3.x,
   d0.y + d1.y + d2.y + m.data3.y,
   d0.z + d1.z + d2.z + m.data3.z⟩

/-- Matrix::CreateTranslation(float x, float y, float z)
(Matrix.cpp lines 128-136): the scalar-component overload, writing the four
Vector4 initializers straight into `data[0..3]`. -/
def Matrix.CreateTranslationFloats (x y z : ℝ) : Matrix :=
  ⟨⟨1, 0, 0, x⟩, ⟨0, 1, 0, y⟩, ⟨0, 0, 1, z⟩, ⟨0, 0, 0, 1⟩⟩

/-- Matrix::CreateTranslation(const Vector3&) (Matrix.cpp lines 138-141):
goes through the Vector3 constructor, which widens the three axes with
homogeneous component 0 and the translation with homogeneous component 1. -/
def Matrix.CreateTranslation (t : Vec3) : Matrix :=
  ⟨⟨1, 0, 0, 0⟩, ⟨0, 1, 0, 0⟩, ⟨0, 0, 1, 0⟩, ⟨t.x, t.y, t.z, 1⟩⟩

/-- Matrix::CreateRotationZ (Matrix.cpp lines 167-177), entries exactly as
listed in the source (note the all-zero third Vector4). -/
def Matrix.CreateRotationZ (roll : ℝ) : Matrix :=
  ⟨⟨Real.cos roll, Real.sin roll, 0, 0⟩,
   ⟨-Real.sin roll, Real.cos roll, 0, 0⟩,
   ⟨0, 0, 0, 0⟩,
   ⟨0, 0, 0, 1⟩⟩

/-- Modelled from the spec: Ray (DataTypes.h is not in the snapshot) -
origin, direction and the valid hit-distance interval `[min, max]`. -/
structure Ray where
  origin : Vec3
  direction : Vec3
  min : ℝ
  max : ℝ

/-- Modelled from the spec: HitRecord (DataTypes.h is not in the snapshot). -/
structure HitRecord where
  didHit : Bool
  origin : Vec3
  t : ℝ
  normal : Vec3
  materialIndex : ℕ

/-- A value-initialized `HitRecord{}`. -/
def HitRecord.empty : HitRecord := ⟨false, ⟨0, 0, 0⟩, 0, ⟨0, 0, 0⟩, 0⟩

/-- Modelled from the spec: Sphere primitive. -/
structure Sphere where
  origin : Vec3
  radius : ℝ
  materialIndex : ℕ

/-- Modelled from the spec: Plane primitive. -/
structure Plane where
  origin : Vec3
  normal : Vec3
  materialIndex : ℕ

/-- GeometryUtils::HitTest_Sphere (Utils.h lines 14-43).  Returns the C++
boolean result together with the (possibly updated) hit record that the
caller passed by reference.  The branch on the sign of the radicand models
sqrtf returning NaN for a negative argument, which makes both ordered
comparisons on `ti1` false in IEEE float. -/
def HitTest_Sphere (sphere : Sphere) (ray : Ray) (hitRecord : HitRecord)
    (ignoreHitRecord : Bool) : Bool × HitRecord :=
  let tc := sphere.origin - ray.origin
  let dp := dot3 tc ray.direction
  let tcl := tc.magnitude
  let odSqr := tcl ^ 2 - dp ^ 2
  if sphere.radius ^ 2 - odSqr < 0 then (false, hitRecord)
  else
    let tca := Real.sqrt (sphere.radius ^ 2 - odSqr)
    let ti1 := dp - tca
    if ray.min ≤ ti1 ∧ ti1 ≤ ray.max then
      if ignoreHitRecord then (true, hitRecord)
      else
        let pointI1 := ray.origin + ti1 • ray.direction
        (true,
          { didHit := true
            materialIndex := sphere.materialIndex
            normal := (sphere.origin - pointI1).normalized
            origin := ray.origin
            t := ti1 })
    else (false, hitRecord)

/-- GeometryUtils::HitTest_Sphere boolean overload (Utils.h lines 45-49):
calls the record form on a fresh `HitRecord{}` with ignoreHitRecord true. -/
def HitTest_Sphere_bool (sphere : Sphere) (ray : Ray) : Bool :=
  (HitTest_Sphere sphere ray HitRecord.empty true).1

/-- GeometryUtils::HitTest_Plane (Utils.h lines 53-79).  The branch on the
zero denominator models the IEEE division `x / 0` yielding +-Inf or NaN,
none of which passes the interval test against the repository's finite ray
bounds (Ray.max is a finite float, at most FLT_MAX). -/
def HitTest_Plane (plane : Plane) (ray : Ray) (hitRecord : HitRecord)
    (ignoreHitRecord : Bool) : Bool × HitRecord :=
  if dot3 ray.direction plane.normal = 0 then (false, hitRecord)
  else
    let t := dot3 (plane.origin - ray.origin) plane.normal /
      dot3 ray.direction plane.normal
    if ray.min ≤ t ∧ t ≤ ray.max then
      if ignoreHitRecord then (true, hitRecord)
      else
        (true,
          { didHit := true
            materialIndex := plane.materialIndex
            normal := plane.normal
            origin := ray.origin
            t := t })
    else (false, hitRecord)

/-- GeometryUtils::HitTest_Plane boolean overload (Utils.h lines 81-85). -/
def HitTest_Plane_bool (plane : Plane) (ray : Ray) : Bool :=
  (HitTest_Plane plane ray HitRecord.empty true).1

/-- Modelled from the spec: LightType discriminant (DataTypes.h). -/
inductive LightType where
  | Point
  | Directional

/-- Modelled from the spec: Light (DataTypes.h) - origin, direction,
color and intensity, discriminated by `type`. -/
structure Light where
  origin : Vec3
  direction : Vec3
  color : ColorRGB
  intensity : ℝ
  type : LightType

/-- FLT_MAX, the largest finite single-precision float,
(2 - 2^-23) * 2^127. -/
def FLT_MAX : ℝ := 2 ^ 128 - 2 ^ 104

/-- FLT_EPSILON, the single-precision machine epsilon 2^-23. -/
def FLT_EPSILON : ℝ := 1 / 2 ^ 23

/-- LightUtils::GetDirectionToLight (Utils.h lines 121-138): point lights
give the unnormalized vector to the light origin; directional lights give
the negated direction scaled by the FLT_MAX sentinel magnitude. -/
def GetDirectionToLight (light : Light) (origin : Vec3) : Vec3 :=
  match light.type with
  | .Point => light.origin - origin
  | .Directional => FLT_MAX • (-light.direction)

/-- LightUtils::GetRadiance (Utils.h lines 140-145): an unimplemented stub.
The body is `assert(false && "No Implemented Yet!"); return {};` - the
assert aborts in debug builds, and in release builds the function returns a
value-initialized (zero) color for every light and every target. -/
def GetRadiance (light : Light) (target : Vec3) : ColorRGB := ⟨0, 0, 0⟩

/-- Modelled from the spec: the radiance GetRadiance is required to compute
(spec section 4.4) - intensity x color / distance^2 for point lights and
intensity x color, independent of the target, for directional lights.
Stated separately from `GetRadiance` above, which embeds the source's
actual stub behavior, so the two can be compared. -/
def GetRadiance_spec (light : Light) (target : Vec3) : ColorRGB :=
  match light.type with
  | .Point =>
    (light.intensity / dot3 (light.origin - target) (light.origin - target)) •
      light.color
  | .Directional => light.intensity • light.color

/-- Modelled from the spec: BRDF::Lambert (BRDFs.h is not in the snapshot) -
`diffuseColor * reflectance / pi`. -/
def Lambert (kd : ℝ) (diffuseColor : ColorRGB) : ColorRGB :=
  (kd / Real.pi) • diffuseColor

/-- Modelled from the spec: BRDF::Lambert overload taking a color-valued
reflectance, componentwise `diffuseColor * reflectance / pi`. -/
def LambertColor (kd : ColorRGB) (diffuseColor : ColorRGB) : ColorRGB :=
  (1 / Real.pi) • (kd * diffuseColor)

/-- Modelled from the spec: BRDF::Phong -
`ks * max(0, dot(reflect(-l, n), v))^exponent` broadcast to a gray color. -/
def Phong (ks exponent : ℝ) (l v n : Vec3) : ColorRGB :=
  let reflected := reflect (-l) n
  let value := ks * Real.rpow (max 0 (dot3 reflected v)) exponent
  ⟨value, value, value⟩

/-- Modelled from the spec: BRDF::FresnelFunction_Schlick -
`f0 + (1 - f0) * (1 - max(0, dot(h, v)))^5`. -/
def FresnelFunction_Schlick (h v : Vec3) (f0 : ColorRGB) : ColorRGB :=
  f0 + ((1 - max 0 (dot3 h v)) ^ 5) • (ColorRGB.mk 1 1 1 - f0)

/-- Modelled from the spec: BRDF::NormalDistribution_GGX - Trowbridge-Reitz
GGX with alpha = roughness^2, the normal-half dot clamped to >= 0 and the
division guarded when the denominator is zero. -/
def NormalDistribution_GGX (n h : Vec3) (roughness : ℝ) : ℝ :=
  let a := roughness ^ 2
  let nh := max 0 (dot3 n h)
  let denom := Real.pi * (nh ^ 2 * (a ^ 2 - 1) + 1) ^ 2
  if denom = 0 then 0 else a ^ 2 / denom

/-- Modelled from the spec: the Schlick-GGX geometry term
`dot(n, x) / (dot(n, x) * (1 - k) + k)` with a guarded division. -/
def GeometrySchlickGGX (n x : Vec3) (k : ℝ) : ℝ :=
  let nx := dot3 n x
  let denom := nx * (1 - k) + k
  if denom = 0 then 0 else nx / denom

/-- Modelled from the spec: BRDF::GeometryFunction_Smith - product of the
two Schlick-GGX terms with the direct-lighting remapping
`k = (roughness + 1)^2 / 8`. -/
def GeometryFunction_Smith (n v l : Vec3) (roughness : ℝ) : ℝ :=
  let k := (roughness + 1) ^ 2 / 8
  GeometrySchlickGGX n v k * GeometrySchlickGGX n l k

/-- The material variants of Material.h as a closed sum, each constructor
holding the fields of the corresponding class. -/
inductive Material where
  | solidColor (color : ColorRGB)
  | lambert (diffuseColor : ColorRGB) (diffuseReflectance : ℝ)
  | lambertPhong (diffuseColor : ColorRGB) (kd ks phongExponent : ℝ)
  | cookTorrence (albedo : ColorRGB) (metalness roughness : ℝ)

/-- The denominator of the Cook-Torrance specular term,
`4 * dot(v, normal) * dot(l, normal)` (Material.h line 126). -/
def specularDenominator (v l n : Vec3) : ℝ := 4 * dot3 v n * dot3 l n

/-- Material::Shade for each variant (Material.h lines 43-46, 67-70, 92-96,
116-134).  The Cook-Torrance branch follows the source: f0 from metalness,
half vector from v + l, Fresnel/GGX/Smith terms (Smith is called on the
negated normal, as in line 124), the specular color divided by
`4 * dot(v, n) * dot(l, n)` with no guard, and kd zeroed for metals. -/
def Material.Shade (m : Material) (hitRecord : HitRecord) (l v : Vec3) :
    ColorRGB :=
  match m with
  | .solidColor color => color
  | .lambert diffuseColor diffuseReflectance =>
    Lambert diffuseReflectance diffuseColor
  | .lambertPhong diffuseColor kd ks phongExponent =>
    Lambert kd diffuseColor + Phong ks phongExponent l (-v) hitRecord.normal
  | .cookTorrence albedo metalness roughness =>
    let baseReflectivity : ColorRGB :=
      if metalness = 0 then ⟨0.04, 0.04, 0.04⟩ else albedo
    let halfVector := (v + l).normalized
    let fresnel := FresnelFunction_Schlick halfVector v baseReflectivity
    let normalDistribution :=
      NormalDistribution_GGX hitRecord.normal halfVector roughness
    let geoSmith :=
      GeometryFunction_Smith (-hitRecord.normal) v l roughness
    let specularColor :=
      (1 / specularDenominator v l hitRecord.normal) •
        ((normalDistribution * geoSmith) • fresnel)
    let kd : ColorRGB :=
      if 0 < metalness then ⟨0, 0, 0⟩ else ColorRGB.mk 1 1 1 - fresnel
    let diffuseColor := LambertColor kd albedo
    specularColor + diffuseColor

/-- Material::GetReflectivity (Material.h lines 29 and 136-139): zero for
every variant except Cook-Torrance's `(1 - roughness) * metalness`. -/
def Material.GetReflectivity : Material → ℝ
  | .cookTorrence _ metalness roughness => (1 - roughness) * metalness
  | _ => 0

/-- The primitives queried during rendering (the triangle and mesh tests in
Utils.h are assert-false stubs that report no hit and never run in a
conforming scene). -/
inductive Primitive where
  | sphere (s : Sphere)
  | plane (p : Plane)

/-- Dispatch a primitive to its hit test. -/
def hitTestPrimitive (prim : Primitive) (ray : Ray) (hitRecord : HitRecord)
    (ignoreHitRecord : Bool) : Bool × HitRecord :=
  match prim with
  | .sphere s => HitTest_Sphere s ray hitRecord ignoreHitRecord
  | .plane p => HitTest_Plane p ray hitRecord ignoreHitRecord

/-- Modelled from the spec: Scene::GetClosestHit (Scene.cpp is not in the
snapshot) - iterate every primitive, keep the minimum valid t, a later hit
replacing the current best only when its t is strictly less. -/
def GetClosestHit (prims : List Primitive) (ray : Ray) : HitRecord :=
  prims.foldl
    (fun best prim =>
      let res := hitTestPrimitive prim ray HitRecord.empty false
      if res.2.didHit ∧ (best.didHit = false ∨ res.2.t < best.t) then res.2
      else best)
    HitRecord.empty

/-- Modelled from the spec: Scene::DoesHit (Scene.cpp is not in the
snapshot) - the any-hit shadow query, true when some primitive's boolean
hit test reports a hit within the ray's interval. -/
def DoesHit (prims : List Primitive) (ray : Ray) : Bool :=
  prims.any fun prim => (hitTestPrimitive prim ray HitRecord.empty true).1

/-- Renderer::LightingMode (Renderer.h). -/
inductive LightingMode where
  | ObservedArea
  | Radiance
  | BRDF
  | Combined

/-- The renderer toggles m_ShadowsEnabled, m_ReflectionsEnabled and
m_CurrentLightingMode. -/
structure RenderConfig where
  shadowsEnabled : Bool
  reflectionsEnabled : Bool
  mode : LightingMode

/-- The amount added to finalColor for one light by the lighting-mode
switch (Renderer.cpp lines 164-191); a `continue` is a zero amount.  The
ObservedArea and Combined cases skip when observedArea is negative; the
Radiance and BRDF cases have no such check. -/
def lightingModeContribution (mode : LightingMode) (bounce : ℕ)
    (observedArea : ℝ) (radianceColor brdf : ColorRGB)
    (reflectivity multiplier : ℝ) : ColorRGB :=
  match mode with
  | .ObservedArea =>
    if observedArea < 0 then ⟨0, 0, 0⟩
    else ⟨observedArea, observedArea, observedArea⟩
  | .Radiance => radianceColor
  | .BRDF => brdf
  | .Combined =>
    if observedArea < 0 then ⟨0, 0, 0⟩
    else if 0 < bounce then
      (observedArea * reflectivity * multiplier) • (radianceColor * brdf)
    else observedArea • (radianceColor * brdf)

/-- The body of the per-light loop (Renderer.cpp lines 144-192): direction
and distance to the light, the epsilon-offset shadow ray bounded to
`[0, lightDistance]`, observed area, the shadow skip, then the mode switch.
Shade receives the negated light direction and the primary ray direction,
as at line 161. -/
def processLight (prims : List Primitive) (cfg : RenderConfig)
    (rayDirection : Vec3) (mats : List Material) (closestHit : HitRecord)
    (bounce : ℕ) (reflectivity multiplier : ℝ) (finalColor : ColorRGB)
    (light : Light) : ColorRGB :=
  let directionToLight := GetDirectionToLight light closestHit.origin
  let lightDistance := directionToLight.magnitude
  let dirToLight := directionToLight.normalized
  let lightRay : Ray :=
    ⟨closestHit.origin + (0.0001 : ℝ) • closestHit.normal, dirToLight,
      0, lightDistance⟩
  let observedArea := dot3 closestHit.normal dirToLight
  if cfg.shadowsEnabled && DoesHit prims lightRay then finalColor
  else
    let radianceColor := GetRadiance light closestHit.origin
    let brdf :=
      (mats.getD closestHit.materialIndex
        (Material.solidColor ⟨0, 0, 0⟩)).Shade closestHit (-dirToLight)
        rayDirection
    finalColor +
      lightingModeContribution cfg.mode bounce observedArea radianceColor
        brdf reflectivity multiplier

/-- The mutable locals of Renderer::RenderPixel across bounce iterations:
finalColor, reflectivity, multiplier and the view ray. -/
structure RenderState where
  finalColor : ColorRGB
  reflectivity : ℝ
  multiplier : ℝ
  ray : Ray

/-- The constant sky color added on a miss,
`ColorRGB skyColor{ colors::White }` (Renderer.cpp line 203). -/
def skyColor : ColorRGB := ⟨1, 1, 1⟩

/-- The bounce loop of Renderer::RenderPixel (Renderer.cpp lines 137-210),
recursing on the remaining iteration count.  On a hit: fold the lights,
update reflectivity, decay the multiplier by 0.7, reflect the ray with an
epsilon offset, and stop early when reflectivity is below FLT_EPSILON or
reflections are disabled.  On a miss: add the sky color and continue with
the next iteration (the source has no break in this branch). -/
def RenderPixelLoop (prims : List Primitive) (lights : List Light)
    (mats : List Material) (cfg : RenderConfig) (rayDirection : Vec3) :
    ℕ → ℕ → RenderState → RenderState
  | _, 0, st => st
  | bounce, remaining + 1, st =>
    let closestHit := GetClosestHit prims st.ray
    if closestHit.didHit then
      let finalColor' :=
        lights.foldl
          (processLight prims cfg rayDirection mats closestHit bounce
            st.reflectivity st.multiplier)
          st.finalColor
      let reflectivity' :=
        (mats.getD closestHit.materialIndex
          (Material.solidColor ⟨0, 0, 0⟩)).GetReflectivity
      let multiplier' := st.multiplier * 0.7
      let ray' : Ray :=
        { st.ray with
            origin := closestHit.origin + (0.0001 : ℝ) • closestHit.normal
            direction := reflect st.ray.direction closestHit.normal }
      let st' : RenderState := ⟨finalColor', reflectivity', multiplier', ray'⟩
      if reflectivity' < FLT_EPSILON ∨ cfg.reflectionsEnabled = false then st'
      else
        RenderPixelLoop prims lights mats cfg rayDirection (bounce + 1)
          remaining st'
    else
      RenderPixelLoop prims lights mats cfg rayDirection (bounce + 1)
        remaining { st with finalColor := st.finalColor + skyColor }

/-- RenderPixel's initial state (Renderer.cpp lines 130-136): zero color,
zero reflectivity, multiplier one, and the camera view ray. -/
def initialState (viewRay : Ray) : RenderState := ⟨⟨0, 0, 0⟩, 0, 1, viewRay⟩

/-- A concrete probe sphere: unit radius, centered three units down the
z axis, material 0. -/
def probeSphere : Sphere := ⟨⟨0, 0, 3⟩, 1, 0⟩

/-- A concrete probe ray from the world origin straight down the z axis,
with the conventional small positive minimum and FLT_MAX maximum. -/
def probeRay : Ray := ⟨⟨0, 0, 0⟩, ⟨0, 0, 1⟩, 1 / 10000, FLT_MAX⟩

/-- A concrete ray used for miss scenarios. -/
def missRay : Ray := ⟨⟨0, 0, 0⟩, ⟨0, 1, 0⟩, 1 / 10000, FLT_MAX⟩

/-- A concrete white point light behind the probe ray's origin. -/
def probeLight : Light := ⟨⟨0, 0, -1⟩, ⟨0, 0, 0⟩, ⟨1, 1, 1⟩, 1, .Point⟩

/-- The scene containing only the probe sphere. -/
def probeScene : List Primitive := [Primitive.sphere probeSphere]

/-- A solid-white material list. -/
def probeMats : List Material := [Material.solidColor ⟨1, 1, 1⟩]

/-- Shadows and reflections off, BRDF lighting mode. -/
def probeCfgBRDF : RenderConfig := ⟨false, false, .BRDF⟩

/-- Componentwise form of Vec3 addition. -/
@[simp]
theorem vec3_add_def (a b : Vec3) :
    a + b = ⟨a.x + b.x, a.y + b.y, a.z + b.z⟩ := rfl

/-- Componentwise form of Vec3 subtraction. -/
@[simp]
theorem vec3_sub_def (a b : Vec3) :
    a - b = ⟨a.x - b.x, a.y - b.y, a.z - b.z⟩ := rfl

/-- Componentwise form of Vec3 negation. -/
@[simp]
theorem vec3_neg_def (a : Vec3) : -a = ⟨-a.x, -a.y, -a.z⟩ := rfl

/-- Componentwise form of Vec3 scalar multiplication. -/
@[simp]
theorem vec3_smul_def (s : ℝ) (a : Vec3) :
    s • a = ⟨s * a.x, s * a.y, s * a.z⟩ := rfl

/-- Componentwise form of ColorRGB addition. -/
@[simp]
theorem color_add_def (a b : ColorRGB) :
    a + b = ⟨a.r + b.r, a.g + b.g, a.b + b.b⟩ := rfl

/-- Componentwise form of ColorRGB subtraction. -/
@[simp]
theorem color_sub_def (a b : ColorRGB) :
    a - b = ⟨a.r - b.r, a.g - b.g, a.b - b.b⟩ := rfl

/-- Componentwise form of ColorRGB multiplication. -/
@[simp]
theorem color_mul_def (a b : ColorRGB) :
    a * b = ⟨a.r * b.r, a.g * b.g, a.b * b.b⟩ := rfl

/-- Componentwise form of ColorRGB scalar multiplication. -/
@[simp]
theorem color_smul_def (s : ℝ) (a : ColorRGB) :
    s • a = ⟨s * a.r, s * a.g, s * a.b⟩ := rfl

/-- Componentwise form of Vec4 scalar multiplication. -/
@[simp]
theorem vec4_smul_def (s : ℝ) (a : Vec4) :
    s • a = ⟨s * a.x, s * a.y, s * a.z, s * a.w⟩ := rfl

/-- The dot product of a vector with itself is nonnegative. -/
theorem dot3_self_nonneg (v : Vec3) : 0 ≤ dot3 v v := by
  unfold dot3
  nlinarith [sq_nonneg v.x, sq_nonneg v.y, sq_nonneg v.z]

/-- The probe ray hits the probe sphere at distance 2 and the recorded
normal is the unit z vector (pointing from the hit point back toward the
sphere center). -/
theorem probe_sphere_eval :
    HitTest_Sphere probeSphere probeRay HitRecord.empty false =
      (true, ⟨true, ⟨0, 0, 0⟩, 2, ⟨0, 0, 1⟩, 0⟩) := by
  have h9 : Real.sqrt 9 ^ 2 = 9 := Real.sq_sqrt (by norm_num)
  norm_num [HitTest_Sphere, probeSphere, probeRay, dot3, Vec3.magnitude,
    Vec3.normalized, FLT_MAX, HitRecord.empty, h9, Real.sqrt_one,
    Prod.ext_iff, HitRecord.mk.injEq, Vec3.mk.injEq]

/-- The closest hit in the one-sphere probe scene is the probe record. -/
theorem probe_closest :
    GetClosestHit probeScene probeRay =
      ⟨true, ⟨0, 0, 0⟩, 2, ⟨0, 0, 1⟩, 0⟩ := by
  simp only [GetClosestHit, probeScene, List.foldl, hitTestPrimitive,
    probe_sphere_eval]
  simp [HitRecord.empty]

/-- In BRDF mode the probe light adds the solid-white BRDF to the
accumulator even though its observed area at the probe hit is -1. -/
theorem probe_processLight :
    processLight probeScene probeCfgBRDF ⟨0, 0, 1⟩ probeMats
      ⟨true, ⟨0, 0, 0⟩, 2, ⟨0, 0, 1⟩, 0⟩ 0 0 1 ⟨0, 0, 0⟩ probeLight =
      ⟨1, 1, 1⟩ := by
  norm_num [processLight, probeCfgBRDF, probeMats, probeLight,
    GetDirectionToLight, GetRadiance, Vec3.magnitude, Vec3.normalized, dot3,
    Material.Shade, lightingModeContribution, Real.sqrt_one,
    ColorRGB.mk.injEq]

/-- The observed-area term of the probe light at the probe hit is -1. -/
theorem probe_observedArea :
    dot3 (GetClosestHit probeScene probeRay).normal
      ((GetDirectionToLight probeLight
        (GetClosestHit probeScene probeRay).origin).normalized) = -1 := by
  rw [probe_closest]
  norm_num [probeLight, GetDirectionToLight, Vec3.normalized, Vec3.magnitude,
    dot3, Real.sqrt_one]

/-- C4: the code bug exhibited - GetRadiance as shipped (Utils.h lines
140-145) is an assert-false stub returning a zero color, so for the probe
point light (intensity 1, white, at unit distance from the target) it
returns (0,0,0) where the required radiance intensity x color / distance^2
is (1,1,1). -/
theorem C4_radiance_stub :
    GetRadiance probeLight ⟨0, 0, 0⟩ = ⟨0, 0, 0⟩ ∧
    GetRadiance_spec probeLight ⟨0, 0, 0⟩ = ⟨1, 1, 1⟩ ∧
    (⟨1, 1, 1⟩ : ColorRGB) ≠ ⟨0, 0, 0⟩ := by
  refine ⟨rfl, ?_, by norm_num [ColorRGB.mk.injEq]⟩
  norm_num [GetRadiance_spec, probeLight, dot3, ColorRGB.mk.injEq]

/-- C5: HitTest_Plane reports no hit for every ray whose direction is
perpendicular to the plane normal (the IEEE division by the zero
denominator produces a non-finite t that fails the finite interval
test). -/
theorem C5_plane_parallel_no_hit (plane : Plane) (ray : Ray)
    (hitRecord : HitRecord) (ignoreHitRecord : Bool)
    (h : dot3 ray.direction plane.normal = 0) :
    (HitTest_Plane plane ray hitRecord ignoreHitRecord).1 = false := by
  simp [HitTest_Plane, h]

/-- C5 witness: a concrete ray along x against a plane with normal along y
reports no hit. -/
theorem C5_witness :
    dot3 (Ray.mk ⟨0, 0, 0⟩ ⟨1, 0, 0⟩ (1 / 10000) FLT_MAX).direction
        (Plane.mk ⟨0, 1, 0⟩ ⟨0, 1, 0⟩ 0).normal = 0 ∧
    (HitTest_Plane (Plane.mk ⟨0, 1, 0⟩ ⟨0, 1, 0⟩ 0)
        (Ray.mk ⟨0, 0, 0⟩ ⟨1, 0, 0⟩ (1 / 10000) FLT_MAX) HitRecord.empty
        false).1 = false := by
  have h : dot3 (Ray.mk ⟨0, 0, 0⟩ ⟨1, 0, 0⟩ (1 / 10000) FLT_MAX).direction
      (Plane.mk ⟨0, 1, 0⟩ ⟨0, 1, 0⟩ 0).normal = 0 := by
    norm_num [dot3]
  exact ⟨h, C5_plane_parallel_no_hit _ _ _ _ h⟩

/-- C6: the code bug exhibited - the Cook-Torrance specular denominator
`4 * dot(v, n) * dot(l, n)` of Material.h line 126 is exactly zero at a
grazing view direction (dot(v, n) = 0), and the source divides by it with
no guard, so IEEE float evaluation produces an infinite or NaN color
there. -/
theorem C6_specular_denominator_unguarded :
    dot3 (⟨1, 0, 0⟩ : Vec3) (⟨0, 0, 1⟩ : Vec3) = 0 ∧
    specularDenominator ⟨1, 0, 0⟩ ⟨0, 0, 1⟩ ⟨0, 0, 1⟩ = 0 := by
  norm_num [dot3, specularDenominator]

/-- C7: the Vector3 overload of CreateTranslation translates points as the
claim states, but the scalar-component overload (written row-wise into the
column storage) leaves every point unchanged: a code bug exhibited at
translation (1,2,3) and point (5,6,7). -/
theorem C7_translation_overloads :
    (∀ t p : Vec3, (Matrix.CreateTranslation t).TransformPoint p =
      ⟨p.x + t.x, p.y + t.y, p.z + t.z⟩) ∧
    (Matrix.CreateTranslationFloats 1 2 3).TransformPoint ⟨5, 6, 7⟩ =
      ⟨5, 6, 7⟩ ∧
    (⟨5, 6, 7⟩ : Vec3) ≠ ⟨5 + 1, 6 + 2, 7 + 3⟩ := by
  refine ⟨fun t p => ?_, ?_, ?_⟩
  · simp [Matrix.CreateTranslation, Matrix.TransformPoint]
  · norm_num [Matrix.CreateTranslationFloats, Matrix.TransformPoint,
      Vec3.mk.injEq]
  · norm_num [Vec3.mk.injEq]

/-- C8: for spheres and planes the boolean any-hit overload returns true
exactly when the record-building form reports a hit, and the
ignoreHitRecord path leaves the caller's record unchanged. -/
theorem C8_anyhit_agrees (sphere : Sphere) (plane : Plane) (ray : Ray)
    (rec : HitRecord) :
    HitTest_Sphere_bool sphere ray =
      (HitTest_Sphere sphere ray rec false).1 ∧
    (HitTest_Sphere sphere ray rec true).2 = rec ∧
    HitTest_Plane_bool plane ray = (HitTest_Plane plane ray rec false).1 ∧
    (HitTest_Plane plane ray rec true).2 = rec := by
  refine ⟨?_, ?_, ?_, ?_⟩
  · simp only [HitTest_Sphere_bool, HitTest_Sphere]
    split_ifs <;> rfl
  · simp only [HitTest_Sphere]
    split_ifs <;> rfl
  · simp only [HitTest_Plane_bool, HitTest_Plane]
    split_ifs <;> rfl
  · simp only [HitTest_Plane]
    split_ifs <;> rfl

/-- C9: the code bug exhibited - CreateRotationZ stores an all-zero third
basis entry, so for every roll angle it maps the unit z vector (length 1)
to the zero vector (length 0) instead of fixing it and preserving
lengths. -/
theorem C9_rotationZ_zeroes_unit_z (roll : ℝ) :
    (Matrix.CreateRotationZ roll).TransformVector ⟨0, 0, 1⟩ = ⟨0, 0, 0⟩ ∧
    (⟨0, 0, 1⟩ : Vec3).magnitude = 1 ∧
    (⟨0, 0, 0⟩ : Vec3).magnitude = 0 := by
  refine ⟨?_, ?_, ?_⟩
  · simp [Matrix.CreateRotationZ, Matrix.TransformVector]
  · norm_num [Vec3.magnitude, dot3, Real.sqrt_one]
  · norm_num [Vec3.magnitude, dot3, Real.sqrt_zero]

/-- C10: HitTest_Sphere takes only the nearer quadratic root dp - sqrt(D),
so a ray whose origin is strictly inside the sphere with a positive
interval minimum reports no hit. -/
theorem C10_inside_origin_no_hit (sphere : Sphere) (ray : Ray)
    (hitRecord : HitRecord) (ignoreHitRecord : Bool)
    (hin : dot3 (sphere.origin - ray.origin) (sphere.origin - ray.origin) <
      sphere.radius ^ 2)
    (hmin : 0 < ray.min) :
    (HitTest_Sphere sphere ray hitRecord ignoreHitRecord).1 = false := by
  simp only [HitTest_Sphere]
  set tc := sphere.origin - ray.origin with htc
  set dp := dot3 tc ray.direction with hdp
  have hmag : tc.magnitude ^ 2 = dot3 tc tc :=
    Real.sq_sqrt (dot3_self_nonneg tc)
  have hDgt : dp ^ 2 < sphere.radius ^ 2 - (tc.magnitude ^ 2 - dp ^ 2) := by
    rw [hmag]; nlinarith
  have hD0 : ¬ sphere.radius ^ 2 - (tc.magnitude ^ 2 - dp ^ 2) < 0 := by
    nlinarith [sq_nonneg dp]
  rw [if_neg hD0, if_neg]
  intro hcond
  have habs : |dp| <
      Real.sqrt (sphere.radius ^ 2 - (tc.magnitude ^ 2 - dp ^ 2)) := by
    rw [← Real.sqrt_sq_eq_abs]
    exact Real.sqrt_lt_sqrt (sq_nonneg dp) hDgt
  have : dp - Real.sqrt (sphere.radius ^ 2 - (tc.magnitude ^ 2 - dp ^ 2)) <
      0 := by
    have := le_abs_self dp
    linarith
  linarith [hcond.1]

/-- C10 witness: a ray starting at the center-adjacent interior point of a
radius-2 sphere with positive interval minimum reports no hit. -/
theorem C10_witness :
    dot3 ((Sphere.mk ⟨0, 0, 1⟩ 2 0).origin - probeRay.origin)
        ((Sphere.mk ⟨0, 0, 1⟩ 2 0).origin - probeRay.origin) <
      (Sphere.mk ⟨0, 0, 1⟩ 2 0).radius ^ 2 ∧
    0 < probeRay.min ∧
    (HitTest_Sphere (Sphere.mk ⟨0, 0, 1⟩ 2 0) probeRay HitRecord.empty
      false).1 = false := by
  have h1 : dot3 ((Sphere.mk ⟨0, 0, 1⟩ 2 0).origin - probeRay.origin)
      ((Sphere.mk ⟨0, 0, 1⟩ 2 0).origin - probeRay.origin) <
      (Sphere.mk ⟨0, 0, 1⟩ 2 0).radius ^ 2 := by
    norm_num [dot3, probeRay]
  have h2 : 0 < probeRay.min := by norm_num [probeRay]
  exact ⟨h1, h2, C10_inside_origin_no_hit _ _ _ _ h1 h2⟩

/-- C1 counterexample: with an empty scene and a maximum bounce count of 2,
the integrator accumulates the sky color twice, not once - the miss branch
has no break, so the claim that the sky color is added exactly once and the
loop terminates is false. -/
theorem C1_counterexample :
    (RenderPixelLoop [] [] [] ⟨true, true, .Combined⟩ ⟨0, 1, 0⟩ 0 2
      (initialState missRay)).finalColor = ⟨2, 2, 2⟩ ∧
    (⟨2, 2, 2⟩ : ColorRGB) ≠ skyColor := by
  constructor
  · norm_num [RenderPixelLoop, GetClosestHit, HitRecord.empty, initialState,
      skyColor, ColorRGB.mk.injEq]
  · norm_num [skyColor, ColorRGB.mk.injEq]

/-- C1 (amended): when the ray misses every primitive the bounce loop does
not terminate; the sky color is added once per remaining iteration, so the
accumulated color grows by remaining x sky and the ray is left unchanged. -/
theorem C1_miss_adds_sky_per_bounce (prims : List Primitive)
    (lights : List Light) (mats : List Material) (cfg : RenderConfig)
    (rayDirection : Vec3) (bounce remaining : ℕ) (st : RenderState)
    (h : (GetClosestHit prims st.ray).didHit = false) :
    (RenderPixelLoop prims lights mats cfg rayDirection bounce remaining
        st).finalColor =
      ⟨st.finalColor.r + remaining, st.finalColor.g + remaining,
        st.finalColor.b + remaining⟩ ∧
    (RenderPixelLoop prims lights mats cfg rayDirection bounce remaining
        st).ray = st.ray := by
  induction remaining generalizing bounce st with
  | zero =>
    refine ⟨?_, rfl⟩
    show st.finalColor = _
    ext <;> simp
  | succ n ih =>
    have hstep : RenderPixelLoop prims lights mats cfg rayDirection bounce
        (n + 1) st =
        RenderPixelLoop prims lights mats cfg rayDirection (bounce + 1) n
          { st with finalColor := st.finalColor + skyColor } := by
      simp only [RenderPixelLoop, h]
      simp
    have h' : (GetClosestHit prims
        ({ st with finalColor := st.finalColor + skyColor } :
          RenderState).ray).didHit = false := h
    obtain ⟨ih1, ih2⟩ :=
      ih (bounce + 1) { st with finalColor := st.finalColor + skyColor } h'
    refine ⟨?_, by rw [hstep, ih2]⟩
    rw [hstep, ih1]
    simp only [skyColor, color_add_def]
    ext <;> push_cast <;> ring

/-- C1 witness: three remaining bounces over the empty scene add three sky
colors to the zero initial color. -/
theorem C1_witness :
    (GetClosestHit [] missRay).didHit = false ∧
    (RenderPixelLoop [] [] [] ⟨true, true, .Combined⟩ ⟨0, 1, 0⟩ 0 3
      (initialState missRay)).finalColor = ⟨3, 3, 3⟩ := by
  have h : (GetClosestHit [] missRay).didHit = false := rfl
  refine ⟨h, ?_⟩
  have hmain := (C1_miss_adds_sky_per_bounce [] [] []
    ⟨true, true, .Combined⟩ ⟨0, 1, 0⟩ 0 3 (initialState missRay) h).1
  simpa [initialState] using hmain

/-- C2 counterexample: for the probe sphere and probe ray the recorded
normal is (0,0,1), while normalize(hitPoint - center) at the recorded t is
(0,0,-1) - the source computes normalize(center - hitPoint) instead. -/
theorem C2_counterexample :
    (HitTest_Sphere probeSphere probeRay HitRecord.empty false).2.normal ≠
      ((probeRay.origin +
        (HitTest_Sphere probeSphere probeRay HitRecord.empty
          false).2.t • probeRay.direction) -
        probeSphere.origin).normalized := by
  rw [probe_sphere_eval]
  norm_num [probeRay, probeSphere, Vec3.normalized, Vec3.magnitude, dot3,
    Real.sqrt_one, Vec3.mk.injEq]

/-- C2 (amended): whenever HitTest_Sphere reports a hit with
ignoreHitRecord false, the recorded normal equals
normalize(sphereCenter - hitPoint) - the inward normal, the negation of
the outward normal the claim states. -/
theorem C2_recorded_normal_inward (sphere : Sphere) (ray : Ray)
    (rec : HitRecord)
    (h : (HitTest_Sphere sphere ray rec false).1 = true) :
    (HitTest_Sphere sphere ray rec false).2.normal =
      (sphere.origin -
        (ray.origin +
          (HitTest_Sphere sphere ray rec false).2.t •
            ray.direction)).normalized := by
  simp only [HitTest_Sphere] at h ⊢
  split_ifs at h ⊢ with h1 h2 h3
  · exact h3.elim
  · rfl

/-- C2 witness: the probe sphere and probe ray report a hit and the
recorded normal is the inward normal at the recorded t. -/
theorem C2_witness :
    (HitTest_Sphere probeSphere probeRay HitRecord.empty false).1 = true ∧
    (HitTest_Sphere probeSphere probeRay HitRecord.empty false).2.normal =
      (probeSphere.origin -
        (probeRay.origin +
          (HitTest_Sphere probeSphere probeRay HitRecord.empty
            false).2.t • probeRay.direction)).normalized := by
  have h : (HitTest_Sphere probeSphere probeRay HitRecord.empty false).1 =
      true := by rw [probe_sphere_eval]
  exact ⟨h, C2_recorded_normal_inward probeSphere probeRay HitRecord.empty h⟩

/-- C3 counterexample: in BRDF mode, a light whose observed-area term at
the hit is -1 still contributes the full solid-white BRDF to the
accumulated color, so negative observed-area terms are not discarded in
BRDF mode. -/
theorem C3_counterexample :
    dot3 (GetClosestHit probeScene probeRay).normal
      ((GetDirectionToLight probeLight
        (GetClosestHit probeScene probeRay).origin).normalized) = -1 ∧
    (RenderPixelLoop probeScene [probeLight] probeMats probeCfgBRDF
      ⟨0, 0, 1⟩ 0 1 (initialState probeRay)).finalColor = ⟨1, 1, 1⟩ ∧
    (⟨1, 1, 1⟩ : ColorRGB) ≠ ⟨0, 0, 0⟩ := by
  refine ⟨probe_observedArea, ?_, by norm_num [ColorRGB.mk.injEq]⟩
  simp only [RenderPixelLoop, initialState, probe_closest, List.foldl,
    probe_processLight]
  norm_num [Material.GetReflectivity, probeMats, FLT_EPSILON]

/-- C3 (amended): a negative observed-area term yields a zero contribution
in the ObservedArea and Combined lighting modes only; in BRDF mode the
material BRDF is accumulated regardless of the sign, and in Radiance mode
the radiance is accumulated regardless. -/
theorem C3_negative_observed_area_by_mode (bounce : ℕ) (oa : ℝ)
    (rad brdf : ColorRGB) (reflectivity multiplier : ℝ) (h : oa < 0) :
    lightingModeContribution .ObservedArea bounce oa rad brdf reflectivity
        multiplier = ⟨0, 0, 0⟩ ∧
    lightingModeContribution .Combined bounce oa rad brdf reflectivity
        multiplier = ⟨0, 0, 0⟩ ∧
    lightingModeContribution .BRDF bounce oa rad brdf reflectivity
        multiplier = brdf ∧
    lightingModeContribution .Radiance bounce oa rad brdf reflectivity
        multiplier = rad := by
  simp [lightingModeContribution, if_pos h]

/-- C3 witness: the amended statement applied at observed area -1. -/
theorem C3_witness :
    (-1 : ℝ) < 0 ∧
    lightingModeContribution .BRDF 0 (-1) ⟨1, 1, 1⟩ ⟨2, 3, 4⟩ 0 1 =
      ⟨2, 3, 4⟩ := by
  have h : (-1 : ℝ) < 0 := by norm_num
  exact ⟨h, (C3_negative_observed_area_by_mode 0 (-1) ⟨1, 1, 1⟩ ⟨2, 3, 4⟩
    0 1 h).2.2.1⟩

end RayTracer
